import Mathlib

/-!
Verification of the capture classification and normalization pipeline of the
CerebroOnline repository, a shallow embedding of src/hooks/useCapture.ts.

The mutation function of useCapture receives the raw text, invokes the
classifier (with a raw-fetch fallback transport), normalizes the loosely
typed classifier output onto the strict enum constraints of the database
schema, and routes the result either to the goals table (with a companion
history entry) or to the entries table.  JavaScript falsy-or defaulting
(x || d) on strings and numbers is modelled explicitly, since the source
relies on it for empty strings and zero.
-/

namespace CerebroOnline

/-- Models the JavaScript expression v || d for a possibly absent string:
null, undefined and the empty string all select the default. -/
def strOr (v : Option String) (d : String) : String :=
  match v with
  | none => d
  | some s => if s = "" then d else s

/-- Models the JavaScript expression v || null for a possibly absent string:
the empty string collapses to null. -/
def strOrNull (v : Option String) : Option String :=
  match v with
  | none => none
  | some s => if s = "" then none else some s

/-- Models the JavaScript expression v || d for a possibly absent number:
zero is falsy and selects the default. -/
def natOr (v : Option Nat) (d : Nat) : Nat :=
  match v with
  | none => d
  | some n => if n = 0 then d else n

/-- Models the JavaScript truth test !v for a possibly absent string. -/
def strFalsy (v : Option String) : Bool :=
  match v with
  | none => true
  | some s => s == ""

/-- Character-list version of startsWith, used to build substring search. -/
def chStarts : List Char → List Char → Bool
  | [], _ => true
  | _ :: _, [] => false
  | a :: as, b :: bs => a == b && chStarts as bs

/-- Character-list substring containment. -/
def chContains (needle : List Char) : List Char → Bool
  | [] => needle.isEmpty
  | b :: bs => chStarts needle (b :: bs) || chContains needle bs

/-- Models the JavaScript hay.includes(sub) substring test. -/
def strIncludes (hay sub : String) : Bool :=
  chContains sub.data hay.data

/-- Models the JavaScript s.startsWith(sub) test. -/
def strStarts (hay sub : String) : Bool :=
  chStarts sub.data hay.data

/-- Models the JavaScript s.toLowerCase() call, character by character. -/
def strToLower (s : String) : String :=
  ⟨s.data.map Char.toLower⟩

/-- Checklist entries arrive from the classifier either as plain strings or
as text-and-done records (the union type in the ClassificationResult
interface of useCapture.ts). -/
inductive ChecklistItem where
  | plain (text : String)
  | item (text : String) (done : Bool)
deriving DecidableEq

/-- The open metadata bag of the classifier response (useCapture.ts lines
11-21).  Enum-like fields are plain strings because the upstream model is
untrusted; every field is optional at runtime.  The is_goal_trigger flag is
the extra key the goal branch spreads into the companion history entry. -/
structure Metadata where
  summary : Option String
  tags : Option (List String)
  emoji : Option String
  target : Option Nat
  unit : Option String
  period_type : Option String
  due_date : Option String
  priority : Option String
  checklist : Option (List ChecklistItem)
  is_goal_trigger : Bool
deriving DecidableEq

/-- The classifier response shape (ClassificationResult in useCapture.ts).
String-typed enum fields model the untrusted wire values; metadata may be
absent at runtime even though the TypeScript type declares it required. -/
structure ClassificationResult where
  category_slug : String
  entry_type : String
  status : Option String
  metadata : Option Metadata
deriving DecidableEq

/-- Result of one transport attempt against the classify-entry endpoint:
either a parsed body (possibly null) or a thrown error message. -/
inductive TransportResult where
  | ok (data : Option ClassificationResult)
  | err (message : String)

/-- Models the classifier invocation step (useCapture.ts lines 33-73): the
primary SDK invocation is used when it succeeds; on error the raw-fetch
fallback is tried; when both fail the error is swallowed (only a toast is
shown) and the classification stays null. -/
def classifyStep (primary fallback : TransportResult) : Option ClassificationResult :=
  match primary with
  | .ok d => d
  | .err _ =>
    match fallback with
    | .ok d => d
    | .err _ => none

/-- Database-accepted entry_type values (useCapture.ts line 163). -/
def validTypes : List String := ["task", "note", "insight", "bookmark"]

/-- Database-accepted priority values (useCapture.ts line 172). -/
def validPriorities : List String := ["low", "medium", "high", "urgent"]

/-- Database-accepted status values (useCapture.ts line 173). -/
def validStatuses : List String := ["pending", "in_progress", "done"]

/-- Database-accepted period_type values (useCapture.ts line 97). -/
def validPeriods : List String := ["daily", "weekly", "monthly"]

/-- Urgency keyword scan on the lowercased input (useCapture.ts line 83). -/
def urgentKeyword (text : String) : Bool :=
  strIncludes (strToLower text) "urgente" || strIncludes (strToLower text) "urgent" ||
    strIncludes (strToLower text) "pra ontem"

/-- Progress keyword scan on the lowercased input (useCapture.ts line 187). -/
def progressKeyword (text : String) : Bool :=
  strStarts (strToLower text) "estou " || strIncludes (strToLower text) "fazendo" ||
    strIncludes (strToLower text) "andamento"

/-- The fallback metadata object built when the classifier returned nothing
(useCapture.ts line 78). -/
def defaultMetadata (text : String) : Metadata :=
  { summary := some text
    tags := none
    emoji := none
    target := none
    unit := none
    period_type := none
    due_date := none
    priority := some "medium"
    checklist := none
    is_goal_trigger := false }

/-- The metadata value before the keyword overrides: classification?.metadata
with the fallback default (useCapture.ts line 78). -/
def rawMetadata (text : String) (c : Option ClassificationResult) : Metadata :=
  (c.bind ClassificationResult.metadata).getD (defaultMetadata text)

/-- The metadata value after the hybrid-intelligence priority overrides
(useCapture.ts lines 82-87): urgency keywords force priority urgent; with no
classification and a falsy priority the priority becomes medium. -/
def effectiveMetadata (text : String) (c : Option ClassificationResult) : Metadata :=
  if urgentKeyword text then
    { rawMetadata text c with priority := some "urgent" }
  else if c.isNone && strFalsy (rawMetadata text c).priority then
    { rawMetadata text c with priority := some "medium" }
  else
    rawMetadata text c

/-- The target category slug: classification?.category_slug || 'ideas'
(useCapture.ts line 76). -/
def targetSlugOf (c : Option ClassificationResult) : String :=
  strOr (c.map ClassificationResult.category_slug) "ideas"

/-- The lowercased entry type: (classification?.entry_type || 'note')
.toLowerCase() (useCapture.ts line 77). -/
def entryTypeOf (c : Option ClassificationResult) : String :=
  strToLower (strOr (c.map ClassificationResult.entry_type) "note")

/-- Entry type after the check-constraint validation (useCapture.ts lines
163-167): anything outside the four valid types becomes note. -/
def finalEntryTypeOf (c : Option ClassificationResult) : String :=
  if entryTypeOf c ∈ validTypes then entryTypeOf c else "note"

/-- The lowercased priority before validation:
metadata.priority?.toLowerCase() || null (useCapture.ts line 175). -/
def priorityLower (m : Metadata) : Option String :=
  strOrNull (m.priority.map strToLower)

/-- Priority after the check-constraint validation (useCapture.ts lines
175-178): out-of-range values fall back to null. -/
def finalPriorityOf (m : Metadata) : Option String :=
  match priorityLower m with
  | none => none
  | some p => if p ∈ validPriorities then some p else none

/-- The lowercased status with its default:
classification?.status?.toLowerCase() || 'pending' (useCapture.ts line 180). -/
def statusLower (c : Option ClassificationResult) : String :=
  strOr ((c.bind ClassificationResult.status).map strToLower) "pending"

/-- Status after the check-constraint validation (useCapture.ts lines
180-183). -/
def sanStatus (c : Option ClassificationResult) : String :=
  if statusLower c ∈ validStatuses then statusLower c else "pending"

/-- Status after the client-side progress-keyword fail-safe (useCapture.ts
lines 185-189). -/
def finalStatusOf (text : String) (c : Option ClassificationResult) : String :=
  if progressKeyword text then "in_progress" else sanStatus c

/-- Period type of a goal after normalization against the Postgres check
constraint (useCapture.ts lines 96-99). -/
def periodTypeOf (m : Metadata) : String :=
  if strToLower (strOr m.period_type "weekly") ∈ validPeriods then
    strToLower (strOr m.period_type "weekly")
  else "weekly"

/-- Calendar dates as year, month, day-of-month plus the JavaScript
day-of-week (0 = Sunday .. 6 = Saturday), the data a JS Date exposes to
date-fns. -/
structure Date where
  year : Nat
  month : Nat
  day : Nat
  dow : Fin 7
deriving DecidableEq

/-- Gregorian leap-year rule, for month lengths. -/
def isLeap (y : Nat) : Bool :=
  (y % 4 == 0 && y % 100 != 0) || y % 400 == 0

/-- Number of days of a month in the Gregorian calendar. -/
def daysInMonth (y m : Nat) : Nat :=
  if m == 2 then (if isLeap y then 29 else 28)
  else if m == 4 || m == 6 || m == 9 || m == 11 then 30
  else 31

/-- One day back in the Gregorian calendar; the day of week always moves
back by one (mod 7). -/
def prevDay (d : Date) : Date :=
  if 1 < d.day then
    { d with day := d.day - 1, dow := ⟨(d.dow.val + 6) % 7, Nat.mod_lt _ (by decide)⟩ }
  else if 1 < d.month then
    { d with
      month := d.month - 1
      day := daysInMonth d.year (d.month - 1)
      dow := ⟨(d.dow.val + 6) % 7, Nat.mod_lt _ (by decide)⟩ }
  else
    { d with
      year := d.year - 1
      month := 12
      day := 31
      dow := ⟨(d.dow.val + 6) % 7, Nat.mod_lt _ (by decide)⟩ }

/-- Going back a given number of days. -/
def subDays : Date → Nat → Date
  | d, 0 => d
  | d, n + 1 => subDays (prevDay d) n

/-- Models startOfWeek(now, weekStartsOn 1) from the date-fns library
(useCapture.ts line 106): go back (dow - 1) mod 7 days to reach Monday. -/
def startOfWeekMon (d : Date) : Date :=
  subDays d ((d.dow.val + 6) % 7)

/-- Models startOfMonth(now) from the date-fns library (useCapture.ts line
108): go back to day 1 of the current month. -/
def startOfMonthD (d : Date) : Date :=
  subDays d (d.day - 1)

/-- Zero-padding to two digits for the date format. -/
def pad2 (n : Nat) : String :=
  if n < 10 then "0" ++ toString n else toString n

/-- Zero-padding to four digits for the date format. -/
def pad4 (n : Nat) : String :=
  if n < 10 then "000" ++ toString n
  else if n < 100 then "00" ++ toString n
  else if n < 1000 then "0" ++ toString n
  else toString n

/-- Models format(date, yyyy-MM-dd) from the date-fns library (useCapture.ts
line 123). -/
def formatYMD (d : Date) : String :=
  pad4 d.year ++ "-" ++ pad2 d.month ++ "-" ++ pad2 d.day

/-- The period start computed for a goal (useCapture.ts lines 101-112). -/
def periodStartOf (periodType : String) (now : Date) : Date :=
  if periodType = "weekly" then startOfWeekMon now
  else if periodType = "monthly" then startOfMonthD now
  else now

/-- The display name returned with a created goal (useCapture.ts line 145). -/
def goalCategoryName (periodType : String) : String :=
  if periodType = "weekly" then "Meta Semanal"
  else if periodType = "monthly" then "Meta Mensal"
  else "Meta Diária"

/-- The row submitted to the goals table (useCapture.ts lines 114-128). -/
structure GoalPayload where
  user_id : String
  title : String
  emoji : String
  target : Nat
  unit : String
  period_type : String
  period_start : String
  current : Nat
  category : String
deriving DecidableEq

/-- The companion history row submitted to the entries table for a goal
(useCapture.ts lines 136-143). -/
structure HistoryEntryPayload where
  user_id : String
  content : String
  entry_type : String
  metadata : Metadata
  status : String
  checklist : List ChecklistItem
deriving DecidableEq

/-- The row submitted to the entries table for a regular capture
(useCapture.ts lines 191-202). -/
structure EntryPayload where
  user_id : String
  content : String
  category_id : Option Nat
  entry_type : String
  metadata : Metadata
  status : String
  due_date : Option String
  priority : Option String
  tags : List String
  checklist : List ChecklistItem
deriving DecidableEq

/-- What the pipeline submits for persistence: either a goal row together
with its companion history entry and the display category name, or a regular
entry row together with the resolved category name. -/
inductive CaptureOutcome where
  | goalOutcome (goal : GoalPayload) (history : HistoryEntryPayload) (categoryName : String)
  | entryOutcome (payload : EntryPayload) (categoryName : Option String)
deriving DecidableEq

/-- The regular entry payload of an outcome, when there is one. -/
def entryPayloadOf : CaptureOutcome → Option EntryPayload
  | .entryOutcome p _ => some p
  | .goalOutcome _ _ _ => none

/-- The goal payload of an outcome, when there is one. -/
def goalPayloadOf : CaptureOutcome → Option GoalPayload
  | .goalOutcome g _ _ => some g
  | .entryOutcome _ _ => none

/-- The companion history payload of an outcome, when there is one. -/
def historyPayloadOf : CaptureOutcome → Option HistoryEntryPayload
  | .goalOutcome _ h _ => some h
  | .entryOutcome _ _ => none

/-- The normalization and routing part of the capture pipeline (useCapture.ts
lines 76-216), as a function of the input text, the classifier outcome, the
current date and the category lookup table.  It produces the records the
pipeline submits for persistence. -/
def capturePipeline (userId text : String) (classification : Option ClassificationResult)
    (now : Date) (catLookup : String → Option (Nat × String)) : CaptureOutcome :=
  if entryTypeOf classification = "goal" then
    .goalOutcome
      { user_id := userId
        title := strOr (effectiveMetadata text classification).summary text
        emoji := strOr (effectiveMetadata text classification).emoji "🎯"
        target := natOr (effectiveMetadata text classification).target 1
        unit := strOr (effectiveMetadata text classification).unit "unidade"
        period_type := periodTypeOf (effectiveMetadata text classification)
        period_start := formatYMD (periodStartOf (periodTypeOf (effectiveMetadata text classification)) now)
        current := 0
        category := strOr (some (targetSlugOf classification)) "ideas" }
      { user_id := userId
        content := text
        entry_type := "task"
        metadata := { effectiveMetadata text classification with is_goal_trigger := true }
        status := "pending"
        checklist := (effectiveMetadata text classification).checklist.getD [] }
      (goalCategoryName (periodTypeOf (effectiveMetadata text classification)))
  else
    .entryOutcome
      { user_id := userId
        content := text
        category_id := (catLookup (targetSlugOf classification)).map Prod.fst
        entry_type := finalEntryTypeOf classification
        metadata := effectiveMetadata text classification
        status := finalStatusOf text classification
        due_date := strOrNull (effectiveMetadata text classification).due_date
        priority := finalPriorityOf (effectiveMetadata text classification)
        tags := (effectiveMetadata text classification).tags.getD []
        checklist := (effectiveMetadata text classification).checklist.getD [] }
      ((catLookup (targetSlugOf classification)).map Prod.snd)

/-- The result of one insert against the database, as the supabase client
reports it: a row or a structured error. -/
inductive DBResult (α : Type) where
  | ok (row : α)
  | err (message : String)

/-- Models the persistence step of the goal branch (useCapture.ts lines
114-145): the goals insert error is checked and thrown, while the result of
the companion entries insert is never inspected before returning success. -/
def goalPersistStep (periodType : String) (goalRes : DBResult GoalPayload)
    (_histRes : DBResult HistoryEntryPayload) : Except String (GoalPayload × String × String) :=
  match goalRes with
  | .err e => .error e
  | .ok goal => .ok (goal, "goal", goalCategoryName periodType)

/-- The effect of one run of the normalization on the caller's raw
classification object: the only in-place write is the urgency override
metadata.priority = urgent (useCapture.ts line 84); the medium default on
line 86 only ever runs when the classification is null, in which case it
writes to a fresh fallback object. -/
def mutateClassification (text : String) : Option ClassificationResult → Option ClassificationResult
  | none => none
  | some cr =>
    match cr.metadata with
    | none => some cr
    | some m =>
      if urgentKeyword text then
        some { cr with metadata := some { m with priority := some "urgent" } }
      else some cr

/-! ### Sample concrete inputs used by the witnesses -/

/-- A fixed sample date (a Sunday, 2025-06-15) for concrete evaluations. -/
def sampleDate : Date := ⟨2025, 6, 15, 0⟩

/-- A category lookup with no matching rows. -/
def sampleLookup : String → Option (Nat × String) := fun _ => none

/-- A sample metadata bag carrying an out-of-range priority. -/
def mBadPriority : Metadata :=
  { summary := none
    tags := none
    emoji := none
    target := none
    unit := none
    period_type := none
    due_date := none
    priority := some "ASAP"
    checklist := none
    is_goal_trigger := false }

/-- A sample classifier output carrying an out-of-range priority. -/
def crBadPriority : ClassificationResult :=
  { category_slug := "work"
    entry_type := "task"
    status := none
    metadata := some mBadPriority }

/-- A sample metadata bag for a monthly goal. -/
def mMonthlyGoal : Metadata :=
  { summary := some "correr 10km por mes"
    tags := none
    emoji := none
    target := some 10
    unit := some "km"
    period_type := some "monthly"
    due_date := none
    priority := none
    checklist := none
    is_goal_trigger := false }

/-- A sample classifier output of type goal with a monthly period. -/
def crMonthlyGoal : ClassificationResult :=
  { category_slug := "work"
    entry_type := "goal"
    status := none
    metadata := some mMonthlyGoal }

/-- A sample classifier output with a wrong-case entry type. -/
def crUpperBookmark : ClassificationResult :=
  { category_slug := "links"
    entry_type := "BOOKMARK"
    status := none
    metadata := none }

/-- A sample classifier output with an out-of-range entry type. -/
def crWeirdType : ClassificationResult :=
  { category_slug := "links"
    entry_type := "reminder"
    status := some "done"
    metadata := none }

/-! ### Helper lemmas about the sanitizers -/

theorem finalEntryTypeOf_mem (c : Option ClassificationResult) :
    finalEntryTypeOf c ∈ validTypes := by
  unfold finalEntryTypeOf
  split
  · assumption
  · decide

theorem finalStatusOf_mem (text : String) (c : Option ClassificationResult) :
    finalStatusOf text c ∈ validStatuses := by
  unfold finalStatusOf sanStatus
  split
  · decide
  · split
    · assumption
    · decide

theorem finalPriorityOf_valid (m : Metadata) (q : String)
    (h : finalPriorityOf m = some q) : q ∈ validPriorities := by
  unfold finalPriorityOf at h
  split at h
  · cases h
  · split at h
    · cases h; assumption
    · cases h

theorem periodTypeOf_mem (m : Metadata) : periodTypeOf m ∈ validPeriods := by
  unfold periodTypeOf
  split
  · assumption
  · decide

/-! ### Helper lemmas about the calendar model -/

theorem prevDay_dow (d : Date) : (prevDay d).dow.val = (d.dow.val + 6) % 7 := by
  unfold prevDay
  split
  · rfl
  · split
    · rfl
    · rfl

theorem prevDay_of_day_gt (d : Date) (h : 1 < d.day) :
    (prevDay d).day = d.day - 1 ∧ (prevDay d).month = d.month ∧
      (prevDay d).year = d.year := by
  unfold prevDay
  rw [if_pos h]
  exact ⟨rfl, rfl, rfl⟩

theorem subDays_dow (k : Nat) : ∀ d : Date, (subDays d k).dow.val = (d.dow.val + 6 * k) % 7 := by
  induction k with
  | zero =>
    intro d
    have := d.dow.isLt
    show d.dow.val = (d.dow.val + 6 * 0) % 7
    omega
  | succ n ih =>
    intro d
    have h1 : subDays d (n + 1) = subDays (prevDay d) n := rfl
    rw [h1, ih (prevDay d), prevDay_dow]
    omega

theorem subDays_to_first (n : Nat) : ∀ d : Date, d.day = n + 1 →
    (subDays d n).day = 1 ∧ (subDays d n).month = d.month ∧
      (subDays d n).year = d.year := by
  induction n with
  | zero =>
    intro d h
    exact ⟨h, rfl, rfl⟩
  | succ n ih =>
    intro d h
    have hgt : 1 < d.day := by omega
    have hp := prevDay_of_day_gt d hgt
    have hd : (prevDay d).day = n + 1 := by omega
    have hrec := ih (prevDay d) hd
    have h1 : subDays d (n + 1) = subDays (prevDay d) n := rfl
    rw [h1]
    exact ⟨hrec.1, by rw [hrec.2.1, hp.2.1], by rw [hrec.2.2, hp.2.2]⟩

theorem startOfWeekMon_dow (d : Date) : (startOfWeekMon d).dow.val = 1 := by
  unfold startOfWeekMon
  rw [subDays_dow]
  have := d.dow.isLt
  omega

theorem startOfMonthD_spec (d : Date) (h : 1 ≤ d.day) :
    (startOfMonthD d).day = 1 ∧ (startOfMonthD d).month = d.month ∧
      (startOfMonthD d).year = d.year := by
  unfold startOfMonthD
  exact subDays_to_first (d.day - 1) d (by omega)

/-! ### The database enum invariant -/

/-- The invariant the spec demands of everything submitted for persistence:
enum-valued columns stay within the database's accepted value sets (stated
from the spec, to be compared with what the pipeline actually produces). -/
def payloadEnumsValid : CaptureOutcome → Prop
  | .entryOutcome p _ =>
      p.entry_type ∈ validTypes ∧ p.status ∈ validStatuses ∧
        ∀ q, p.priority = some q → q ∈ validPriorities
  | .goalOutcome g h _ =>
      g.period_type ∈ validPeriods ∧ h.entry_type ∈ validTypes ∧
        h.status ∈ validStatuses

/-- C1: for every input text and every classifier output, every enum-valued
field of any record the pipeline submits for persistence lies in the
database's accepted value set: entry_type, status and priority (null
allowed) for the regular-entry payload, period_type for the goal payload,
and entry_type and status for the goal's companion history entry. -/
theorem capture_enums_within_db_sets (u text : String) (c : Option ClassificationResult)
    (now : Date) (lk : String → Option (Nat × String)) :
    payloadEnumsValid (capturePipeline u text c now lk) := by
  unfold capturePipeline
  split
  · refine ⟨periodTypeOf_mem _, ?_, ?_⟩
    · show "task" ∈ validTypes
      decide
    · show "pending" ∈ validStatuses
      decide
  · exact ⟨finalEntryTypeOf_mem c, finalStatusOf_mem text c,
      fun q h => finalPriorityOf_valid _ q h⟩

/-- C8: when both classifier transports fail, the classification step
returns null instead of propagating the failure, and the pipeline still
produces a regular entry payload via the default path (entry type note). -/
theorem transport_failure_recovered (e1 e2 u text : String) (now : Date)
    (lk : String → Option (Nat × String)) :
    classifyStep (.err e1) (.err e2) = none ∧
    (entryPayloadOf (capturePipeline u text (classifyStep (.err e1) (.err e2)) now lk)).map
        EntryPayload.entry_type = some "note" := by
  refine ⟨rfl, ?_⟩
  show (entryPayloadOf (capturePipeline u text none now lk)).map EntryPayload.entry_type =
    some "note"
  unfold capturePipeline
  rw [if_neg (by decide : ¬ entryTypeOf none = "goal")]
  rfl

/-! ### The effect of the in-place priority override, for idempotence -/

theorem mutate_entry_type (text : String) (c : Option ClassificationResult) :
    entryTypeOf (mutateClassification text c) = entryTypeOf c := by
  cases c with
  | none => rfl
  | some cr =>
    cases hm : cr.metadata with
    | none => simp [mutateClassification, hm]
    | some m =>
      by_cases hu : urgentKeyword text = true
      · simp [mutateClassification, hm, hu, entryTypeOf]
      · simp [mutateClassification, hm, hu]

theorem mutate_slug (text : String) (c : Option ClassificationResult) :
    targetSlugOf (mutateClassification text c) = targetSlugOf c := by
  cases c with
  | none => rfl
  | some cr =>
    cases hm : cr.metadata with
    | none => simp [mutateClassification, hm]
    | some m =>
      by_cases hu : urgentKeyword text = true
      · simp [mutateClassification, hm, hu, targetSlugOf]
      · simp [mutateClassification, hm, hu]

theorem mutate_status (text : String) (c : Option ClassificationResult) :
    statusLower (mutateClassification text c) = statusLower c := by
  cases c with
  | none => rfl
  | some cr =>
    cases hm : cr.metadata with
    | none => simp [mutateClassification, hm]
    | some m =>
      by_cases hu : urgentKeyword text = true
      · simp [mutateClassification, hm, hu, statusLower]
      · simp [mutateClassification, hm, hu]

theorem mutate_metadata (text : String) (c : Option ClassificationResult) :
    effectiveMetadata text (mutateClassification text c) = effectiveMetadata text c := by
  cases c with
  | none => rfl
  | some cr =>
    cases hm : cr.metadata with
    | none => simp [mutateClassification, hm]
    | some m =>
      by_cases hu : urgentKeyword text = true
      · simp [mutateClassification, hm, hu, effectiveMetadata, rawMetadata]
      · simp [mutateClassification, hm, hu]

theorem mutate_final_entry_type (text : String) (c : Option ClassificationResult) :
    finalEntryTypeOf (mutateClassification text c) = finalEntryTypeOf c := by
  unfold finalEntryTypeOf
  rw [mutate_entry_type]

theorem mutate_final_status (text : String) (c : Option ClassificationResult) :
    finalStatusOf text (mutateClassification text c) = finalStatusOf text c := by
  unfold finalStatusOf sanStatus
  rw [mutate_status]

theorem mutate_idem (text : String) (c : Option ClassificationResult) :
    mutateClassification text (mutateClassification text c) = mutateClassification text c := by
  cases c with
  | none => rfl
  | some cr =>
    cases hm : cr.metadata with
    | none => simp [mutateClassification, hm]
    | some m =>
      by_cases hu : urgentKeyword text = true
      · simp [mutateClassification, hm, hu]
      · simp [mutateClassification, hm, hu]

/-- C9: normalization is idempotent and free of hidden mutable state: the
only write the source performs on the caller's raw classification object is
the urgency override, and running the pipeline again on the mutated object
produces exactly the same submitted records, the mutation itself being
idempotent as well. -/
theorem normalization_idempotent (u text : String) (c : Option ClassificationResult)
    (now : Date) (lk : String → Option (Nat × String)) :
    capturePipeline u text (mutateClassification text c) now lk =
      capturePipeline u text c now lk ∧
    mutateClassification text (mutateClassification text c) =
      mutateClassification text c := by
  refine ⟨?_, mutate_idem text c⟩
  unfold capturePipeline
  rw [mutate_entry_type, mutate_metadata, mutate_slug, mutate_final_entry_type,
    mutate_final_status]

/-- C10: the result of the companion history insert of a goal capture is
never inspected: the persistence step propagates a goals-insert error, and
when the goal row was created it reports success regardless of the outcome
of the companion entries insert. -/
theorem companion_entry_error_ignored (pt : String) (g : GoalPayload) (e : String)
    (hist hist2 : DBResult HistoryEntryPayload) :
    goalPersistStep pt (.ok g) hist = .ok (g, "goal", goalCategoryName pt) ∧
    goalPersistStep pt (.ok g) hist = goalPersistStep pt (.ok g) hist2 ∧
    goalPersistStep pt (.err e) hist = .error e := by
  exact ⟨rfl, rfl, rfl⟩

/-- C2: whenever the input text contains an urgency keyword, any regular
entry the pipeline submits has priority urgent, whatever the classifier
returned; and with no classification at all the pipeline does submit a
regular entry, again with priority urgent. -/
theorem urgent_keyword_forces_urgent_priority (u text : String)
    (c : Option ClassificationResult) (now : Date) (lk : String → Option (Nat × String))
    (h : urgentKeyword text = true) :
    (∀ p n, capturePipeline u text c now lk = .entryOutcome p n →
      p.priority = some "urgent") ∧
    (c = none →
      (entryPayloadOf (capturePipeline u text c now lk)).map EntryPayload.priority =
        some (some "urgent")) := by
  have hpri : finalPriorityOf (effectiveMetadata text c) = some "urgent" := by
    unfold effectiveMetadata
    rw [if_pos h]
    rfl
  constructor
  · intro p n hp
    unfold capturePipeline at hp
    split at hp
    · cases hp
    · cases hp
      exact hpri
  · intro hc
    subst hc
    unfold capturePipeline
    rw [if_neg (by decide : ¬ entryTypeOf none = "goal")]
    show some (finalPriorityOf (effectiveMetadata text none)) = some (some "urgent")
    rw [hpri]

/-- Witness for C2 at the spec's own scenario: urgent keyword with the
classifier entirely unavailable. -/
theorem urgent_keyword_forces_urgent_priority_witness :
    urgentKeyword "comprar leite urgente" = true ∧
    (entryPayloadOf (capturePipeline "u" "comprar leite urgente" none sampleDate
        sampleLookup)).map EntryPayload.priority = some (some "urgent") :=
  ⟨by decide,
    (urgent_keyword_forces_urgent_priority "u" "comprar leite urgente" none sampleDate
      sampleLookup (by decide)).2 rfl⟩

/-- C3 counterexample: the claim quantifies over every input text, but with
the classifier unavailable an input carrying an urgency keyword and a
progress keyword is submitted with priority urgent and status in_progress,
not the claimed medium and pending. -/
theorem null_classification_defaults_counterexample :
    (entryPayloadOf (capturePipeline "u" "estou resolvendo algo urgente" none sampleDate
        sampleLookup)).map (fun p => (p.priority, p.status)) =
      some (some "urgent", "in_progress") ∧
    (some "urgent", "in_progress") ≠ ((some "medium" : Option String), ("pending" : String)) := by
  exact ⟨by decide, by decide⟩

/-- C3 amended: for every input text free of urgency and progress keywords,
a null classification yields exactly the default payload: a note resolved
against the ideas category, priority medium, status pending. -/
theorem null_classification_defaults_amended (u text : String) (now : Date)
    (lk : String → Option (Nat × String)) (h1 : urgentKeyword text = false)
    (h2 : progressKeyword text = false) :
    capturePipeline u text none now lk =
      .entryOutcome
        { user_id := u
          content := text
          category_id := (lk "ideas").map Prod.fst
          entry_type := "note"
          metadata := defaultMetadata text
          status := "pending"
          due_date := none
          priority := some "medium"
          tags := []
          checklist := [] }
        ((lk "ideas").map Prod.snd) := by
  have hm : effectiveMetadata text none = defaultMetadata text := by
    unfold effectiveMetadata
    rw [if_neg (by simp [h1])]
    have hcond : (Option.isNone (none : Option ClassificationResult) &&
        strFalsy (rawMetadata text none).priority) = false := rfl
    rw [if_neg (by rw [hcond]; decide)]
    rfl
  have hs : finalStatusOf text none = "pending" := by
    unfold finalStatusOf
    rw [if_neg (by simp [h2])]
    rfl
  unfold capturePipeline
  rw [if_neg (by decide : ¬ entryTypeOf none = "goal"), hm, hs]
  rfl

/-- Witness for the amended C3 on a keyword-free input. -/
theorem null_classification_defaults_amended_witness :
    urgentKeyword "comprar leite" = false ∧ progressKeyword "comprar leite" = false ∧
    capturePipeline "u" "comprar leite" none sampleDate sampleLookup =
      .entryOutcome
        { user_id := "u"
          content := "comprar leite"
          category_id := none
          entry_type := "note"
          metadata := defaultMetadata "comprar leite"
          status := "pending"
          due_date := none
          priority := some "medium"
          tags := []
          checklist := [] }
        none :=
  ⟨by decide, by decide,
    null_classification_defaults_amended "u" "comprar leite" sampleDate sampleLookup
      (by decide) (by decide)⟩

/-- C4 counterexample: a classifier priority outside the accepted set is
claimed to persist as null on every input, yet with an urgency keyword in
the text the persisted priority is urgent, not null. -/
theorem invalid_priority_null_counterexample :
    strToLower "ASAP" ∉ validPriorities ∧
    (entryPayloadOf (capturePipeline "u" "entregar relatorio urgente" (some crBadPriority)
        sampleDate sampleLookup)).map EntryPayload.priority = some (some "urgent") ∧
    (some "urgent" : Option String) ≠ none := by
  exact ⟨by decide, by decide, by decide⟩

/-- C4 amended: when the classifier's metadata.priority is not one of the
accepted values after lowercasing and the input text carries no urgency
keyword, any regular entry the pipeline submits has priority null. -/
theorem invalid_priority_maps_to_null (u text : String) (cr : ClassificationResult)
    (m : Metadata) (p : String) (now : Date) (lk : String → Option (Nat × String))
    (hm : cr.metadata = some m) (hp : m.priority = some p)
    (hinv : strToLower p ∉ validPriorities) (hu : urgentKeyword text = false) :
    ((entryPayloadOf (capturePipeline u text (some cr) now lk)).all
        fun q => q.priority == none) = true := by
  have hem : effectiveMetadata text (some cr) = m := by
    unfold effectiveMetadata
    rw [if_neg (by simp [hu])]
    have hcond : (Option.isNone (some cr) && strFalsy (rawMetadata text (some cr)).priority) =
        false := by
      simp [Option.isNone]
    rw [if_neg (by rw [hcond]; decide)]
    show Option.getD cr.metadata (defaultMetadata text) = m
    rw [hm]
    rfl
  have hfp : finalPriorityOf m = none := by
    unfold finalPriorityOf priorityLower strOrNull
    rw [hp]
    by_cases hz : strToLower p = ""
    · simp [hz]
    · simp [hz, hinv]
  unfold capturePipeline
  split
  · rfl
  · show (finalPriorityOf (effectiveMetadata text (some cr)) == none) = true
    rw [hem, hfp]
    rfl

/-- Witness for the amended C4: out-of-range priority ASAP on a keyword-free
input persists as null. -/
theorem invalid_priority_maps_to_null_witness :
    urgentKeyword "entregar relatorio" = false ∧
    ((entryPayloadOf (capturePipeline "u" "entregar relatorio" (some crBadPriority) sampleDate
        sampleLookup)).all fun q => q.priority == none) = true :=
  ⟨by decide,
    invalid_priority_maps_to_null "u" "entregar relatorio" crBadPriority mBadPriority "ASAP"
      sampleDate sampleLookup rfl rfl (by decide) (by decide)⟩

/-- C5: entry-type sanitization lowercases before validating, so any
classifier entry_type whose lowercase form is outside the five known types
is submitted as note, while a wrong-case BOOKMARK is accepted as bookmark. -/
theorem entry_type_sanitization_case_insensitive (u text : String) (cr : ClassificationResult)
    (now : Date) (lk : String → Option (Nat × String)) :
    (strToLower cr.entry_type ∉ ["task", "note", "insight", "bookmark", "goal"] →
      (entryPayloadOf (capturePipeline u text (some cr) now lk)).map EntryPayload.entry_type =
        some "note") ∧
    (strToLower cr.entry_type = "bookmark" →
      (entryPayloadOf (capturePipeline u text (some cr) now lk)).map EntryPayload.entry_type =
        some "bookmark") := by
  have hety : entryTypeOf (some cr) =
      strToLower (if cr.entry_type = "" then "note" else cr.entry_type) := rfl
  constructor
  · intro hnot
    by_cases he : cr.entry_type = ""
    · have h1 : entryTypeOf (some cr) = "note" := by
        rw [hety, if_pos he]
        decide
      unfold capturePipeline
      rw [if_neg (by rw [h1]; decide)]
      show some (finalEntryTypeOf (some cr)) = some "note"
      unfold finalEntryTypeOf
      rw [h1]
      rfl
    · have h1 : entryTypeOf (some cr) = strToLower cr.entry_type := by
        rw [hety, if_neg he]
      have hgoal : ¬ entryTypeOf (some cr) = "goal" := by
        rw [h1]
        intro hh
        exact hnot (by rw [hh]; decide)
      have hv : strToLower cr.entry_type ∉ validTypes := by
        intro hvm
        refine hnot ?_
        simp only [validTypes, List.mem_cons, List.mem_singleton] at hvm ⊢
        tauto
      unfold capturePipeline
      rw [if_neg hgoal]
      show some (finalEntryTypeOf (some cr)) = some "note"
      unfold finalEntryTypeOf
      rw [h1, if_neg hv]
  · intro hbk
    have he : ¬ cr.entry_type = "" := by
      intro he
      rw [he] at hbk
      exact absurd hbk (by decide)
    have h1 : entryTypeOf (some cr) = "bookmark" := by
      rw [hety, if_neg he, hbk]
    unfold capturePipeline
    rw [if_neg (by rw [h1]; decide)]
    show some (finalEntryTypeOf (some cr)) = some "bookmark"
    unfold finalEntryTypeOf
    rw [h1]
    rfl

/-- Witness for C5: a wrong-case BOOKMARK is accepted as bookmark and an
unknown type reminder is submitted as note. -/
theorem entry_type_sanitization_case_insensitive_witness :
    (entryPayloadOf (capturePipeline "u" "teste" (some crUpperBookmark) sampleDate
        sampleLookup)).map EntryPayload.entry_type = some "bookmark" ∧
    (entryPayloadOf (capturePipeline "u" "teste" (some crWeirdType) sampleDate
        sampleLookup)).map EntryPayload.entry_type = some "note" :=
  ⟨(entry_type_sanitization_case_insensitive "u" "teste" crUpperBookmark sampleDate
      sampleLookup).2 (by decide),
    (entry_type_sanitization_case_insensitive "u" "teste" crWeirdType sampleDate
      sampleLookup).1 (by decide)⟩

/-- C7: a text starting with estou or containing fazendo or andamento forces
the normalized status to in_progress, overriding whatever status the
classifier returned, and that is the status of any submitted entry. -/
theorem progress_keywords_force_in_progress (u text : String)
    (c : Option ClassificationResult) (now : Date) (lk : String → Option (Nat × String))
    (h : progressKeyword text = true) :
    finalStatusOf text c = "in_progress" ∧
    ((entryPayloadOf (capturePipeline u text c now lk)).all
        fun p => p.status == "in_progress") = true := by
  have h1 : finalStatusOf text c = "in_progress" := by
    unfold finalStatusOf
    rw [if_pos h]
  refine ⟨h1, ?_⟩
  unfold capturePipeline
  split
  · rfl
  · show (finalStatusOf text c == "in_progress") = true
    rw [h1]
    rfl

/-- Witness for C7: a classifier status done is overridden to in_progress. -/
theorem progress_keywords_force_in_progress_witness :
    progressKeyword "estou estudando" = true ∧
    finalStatusOf "estou estudando" (some crWeirdType) = "in_progress" ∧
    ((entryPayloadOf (capturePipeline "u" "estou estudando" (some crWeirdType) sampleDate
        sampleLookup)).all fun p => p.status == "in_progress") = true :=
  ⟨by decide,
    (progress_keywords_force_in_progress "u" "estou estudando" (some crWeirdType) sampleDate
      sampleLookup (by decide)).1,
    (progress_keywords_force_in_progress "u" "estou estudando" (some crWeirdType) sampleDate
      sampleLookup (by decide)).2⟩

/-- C6: a goal-typed capture is submitted with current zero; its period type
is the sanitized metadata period type, always inside the accepted set and
defaulting to weekly when absent or out of range; its period start is the
formatted period boundary, which is the Monday of the current week for
weekly, the first day of the current month for monthly, and today for
daily; and the companion history entry is a pending task tagged as a goal
trigger. -/
theorem goal_branch_payloads (u text : String) (c : Option ClassificationResult)
    (now : Date) (lk : String → Option (Nat × String))
    (hg : entryTypeOf c = "goal") (hd : 1 ≤ now.day) :
    (goalPayloadOf (capturePipeline u text c now lk)).map GoalPayload.current = some 0 ∧
    (goalPayloadOf (capturePipeline u text c now lk)).map GoalPayload.period_type =
      some (periodTypeOf (effectiveMetadata text c)) ∧
    periodTypeOf (effectiveMetadata text c) ∈ validPeriods ∧
    ((effectiveMetadata text c).period_type = none →
      periodTypeOf (effectiveMetadata text c) = "weekly") ∧
    (∀ s, (effectiveMetadata text c).period_type = some s → strToLower s ∉ validPeriods →
      periodTypeOf (effectiveMetadata text c) = "weekly") ∧
    (goalPayloadOf (capturePipeline u text c now lk)).map GoalPayload.period_start =
      some (formatYMD (periodStartOf (periodTypeOf (effectiveMetadata text c)) now)) ∧
    periodStartOf "weekly" now = startOfWeekMon now ∧
    (startOfWeekMon now).dow.val = 1 ∧
    periodStartOf "monthly" now = startOfMonthD now ∧
    (startOfMonthD now).day = 1 ∧ (startOfMonthD now).month = now.month ∧
    (startOfMonthD now).year = now.year ∧
    periodStartOf "daily" now = now ∧
    (historyPayloadOf (capturePipeline u text c now lk)).map
        (fun h => (h.entry_type, h.status, h.metadata.is_goal_trigger)) =
      some ("task", "pending", true) := by
  have hE : ∀ {α : Type} (f : CaptureOutcome → α),
      f (capturePipeline u text c now lk) =
        f (.goalOutcome
            { user_id := u
              title := strOr (effectiveMetadata text c).summary text
              emoji := strOr (effectiveMetadata text c).emoji "🎯"
              target := natOr (effectiveMetadata text c).target 1
              unit := strOr (effectiveMetadata text c).unit "unidade"
              period_type := periodTypeOf (effectiveMetadata text c)
              period_start := formatYMD (periodStartOf (periodTypeOf (effectiveMetadata text c)) now)
              current := 0
              category := strOr (some (targetSlugOf c)) "ideas" }
            { user_id := u
              content := text
              entry_type := "task"
              metadata := { effectiveMetadata text c with is_goal_trigger := true }
              status := "pending"
              checklist := (effectiveMetadata text c).checklist.getD [] }
            (goalCategoryName (periodTypeOf (effectiveMetadata text c)))) := by
    intro α f
    unfold capturePipeline
    rw [if_pos hg]
  refine ⟨?_, ?_, periodTypeOf_mem _, ?_, ?_, ?_, ?_, startOfWeekMon_dow now, ?_,
    (startOfMonthD_spec now hd).1, (startOfMonthD_spec now hd).2.1,
    (startOfMonthD_spec now hd).2.2, ?_, ?_⟩
  · rw [hE (fun o => (goalPayloadOf o).map GoalPayload.current)]
    rfl
  · rw [hE (fun o => (goalPayloadOf o).map GoalPayload.period_type)]
    rfl
  · intro hnone
    unfold periodTypeOf
    rw [hnone]
    decide
  · intro s hs hinv
    unfold periodTypeOf
    rw [hs]
    by_cases hz : s = ""
    · subst hz
      decide
    · have h3 : strOr (some s) "weekly" = s := by simp [strOr, hz]
      rw [h3, if_neg hinv]
  · rw [hE (fun o => (goalPayloadOf o).map GoalPayload.period_start)]
    rfl
  · unfold periodStartOf
    rfl
  · unfold periodStartOf
    rfl
  · unfold periodStartOf
    rfl
  · rw [hE (fun o => (historyPayloadOf o).map
      (fun h => (h.entry_type, h.status, h.metadata.is_goal_trigger)))]
    rfl

/-- Witness for C6 at the spec's monthly-goal scenario. -/
theorem goal_branch_payloads_witness :
    entryTypeOf (some crMonthlyGoal) = "goal" ∧ 1 ≤ sampleDate.day ∧
    (goalPayloadOf (capturePipeline "u" "correr 10km por mes" (some crMonthlyGoal) sampleDate
        sampleLookup)).map GoalPayload.current = some 0 :=
  ⟨by decide, by decide,
    (goal_branch_payloads "u" "correr 10km por mes" (some crMonthlyGoal) sampleDate sampleLookup
      (by decide) (by decide)).1⟩

end CerebroOnline
